import Mathlib

/-!
Verification development for the rt-toolbox bridges.

The definitions below are a shallow embedding of the transport/control
engine shared by the bridge scripts of the repository:

* `src/rt_toolbox/rt_analysis_stats/analysis_stats.py` (`AnalysisStats.run`)
* `src/rt_toolbox/rt_events_writer/events_writer.py` (`EventsWriter.run`)
* `src/rt_toolbox/rt_results_logger/results_logger.py` (`AnalysisStats.run`)
* `src/rt_toolbox/rt_events_reader/events_reader.py` (`EventsReader.run`)
* `src/rt_file_tools/log_analyzer/log_analyzer_sh.py` (`main`)

Wall-clock instants (`time.time()`) are modelled as natural numbers; each
loop iteration is driven by an observation record carrying the signal
flags and the clock value seen by that iteration, and by the poll result
(`None` or a delivered message).  The payload codecs live in the external
`rt_rabbitmq_wrapper` package, which is not part of the repository
sources; they are modelled from the specification where needed and each
such definition is marked `Modelled from the spec:`.
-/

namespace RtToolbox

/-- In-memory verdict values, mirroring the class hierarchy imported from
`rt_rabbitmq_wrapper.exchange_types.verdict.verdict`: the `ProcessVerdict`
subclasses `TaskStartedVerdict`, `TaskFinishedVerdict`,
`CheckpointReachedVerdict` and the `AnalysisVerdict` subclasses
`PyVerdict`, `SymPyVerdict`, `SMT2Verdict`.  The analysis outcome is kept
as a raw string so that the defensive `case _` branches of the Python
`match` statements are representable. -/
inductive Verdict where
  | taskStarted (task : String) (timestamp : Nat)
  | taskFinished (task : String) (timestamp : Nat)
  | checkpointReached (checkpoint : String) (timestamp : Nat)
  | pyVerdict (verdict : String)
  | symPyVerdict (verdict : String)
  | smt2Verdict (verdict : String)
deriving DecidableEq

/-- The test `isinstance(verdict, ProcessVerdict)` for the embedded
verdict type. -/
def Verdict.isProcess : Verdict → Bool
  | .taskStarted _ _ => true
  | .taskFinished _ _ => true
  | .checkpointReached _ _ => true
  | _ => false

/-- The statistics accumulator of `AnalysisStats.run`
(`analysis_stats.py`, lines 88-95): a chronological trace of process
verdicts plus the counters. -/
structure Stats where
  trace : List Verdict := []
  task_started : Nat := 0
  task_finished : Nat := 0
  checkpoints_reached : Nat := 0
  analyzed_props : Nat := 0
  passed_props : Nat := 0
  might_fail_props : Nat := 0
  failed_props : Nat := 0
deriving DecidableEq

/-- One verdict folded into the statistics, mirroring
`analysis_stats.py` lines 151-195.  The boolean records whether the
defensive `case _` branch fired, i.e. whether an
`Invalid ... analysis result` error was logged via `logger.error` (the
loop continues in that case; the verdict is counted in `analyzed_props`
but in none of the outcome tallies).  Note that `might_fail_props` is
never incremented and that `SMT2Verdict.VERDICT.MIGHT_FAIL` is counted
into `failed_props` (line 184-185). -/
def foldVerdict (s : Stats) : Verdict → Stats × Bool
  | .taskStarted t ts =>
      ({ s with task_started := s.task_started + 1,
                trace := s.trace ++ [.taskStarted t ts] }, false)
  | .taskFinished t ts =>
      ({ s with task_finished := s.task_finished + 1,
                trace := s.trace ++ [.taskFinished t ts] }, false)
  | .checkpointReached c ts =>
      ({ s with checkpoints_reached := s.checkpoints_reached + 1,
                trace := s.trace ++ [.checkpointReached c ts] }, false)
  | .pyVerdict v =>
      let s := { s with analyzed_props := s.analyzed_props + 1 }
      if v = "PASS" then ({ s with passed_props := s.passed_props + 1 }, false)
      else if v = "FAIL" then ({ s with failed_props := s.failed_props + 1 }, false)
      else (s, true)
  | .symPyVerdict v =>
      let s := { s with analyzed_props := s.analyzed_props + 1 }
      if v = "PASS" then ({ s with passed_props := s.passed_props + 1 }, false)
      else if v = "FAIL" then ({ s with failed_props := s.failed_props + 1 }, false)
      else (s, true)
  | .smt2Verdict v =>
      let s := { s with analyzed_props := s.analyzed_props + 1 }
      if v = "PASS" then ({ s with passed_props := s.passed_props + 1 }, false)
      else if v = "MIGHT_FAIL" then ({ s with failed_props := s.failed_props + 1 }, false)
      else if v = "FAIL" then ({ s with failed_props := s.failed_props + 1 }, false)
      else (s, true)

/-- A list of verdicts folded in order; the second component counts how
many `Invalid ... analysis result` errors were logged along the way. -/
def foldVerdicts : Stats → List Verdict → Stats × Nat
  | s, [] => (s, 0)
  | s, v :: vs =>
      let p := foldVerdict s v
      let q := foldVerdicts p.1 vs
      (q.1, (if p.2 then 1 else 0) + q.2)

/-- Wire-level verdict dictionaries (the result of `json.loads` on a
`verdict`-typed body).  `malformed` stands for any dictionary that does
not have the shape of one of the tagged variants. -/
inductive VerdictDict where
  | taskStarted (task : String) (timestamp : Nat)
  | taskFinished (task : String) (timestamp : Nat)
  | checkpointReached (checkpoint : String) (timestamp : Nat)
  | py (outcome : String)
  | sympy (outcome : String)
  | smt2 (outcome : String)
  | malformed
deriving DecidableEq

/-- Modelled from the spec: `VerdictDictCoDec.from_dict` of the external
`rt_rabbitmq_wrapper` package (not under the repository sources).  Per
spec section 4.4 decoding validates the structure and that outcome enums
are within the variant's domain (section 3: `PyVerdict`, `SymPyVerdict`
with outcome in PASS/FAIL, `SMT2Verdict` with outcome in
PASS/MIGHT_FAIL/FAIL), raising a codec error (`VerdictDictError`)
otherwise. -/
def VerdictDictCoDec.from_dict : VerdictDict → Except Unit Verdict
  | .taskStarted t ts => .ok (.taskStarted t ts)
  | .taskFinished t ts => .ok (.taskFinished t ts)
  | .checkpointReached c ts => .ok (.checkpointReached c ts)
  | .py o => if o = "PASS" ∨ o = "FAIL" then .ok (.pyVerdict o) else .error ()
  | .sympy o => if o = "PASS" ∨ o = "FAIL" then .ok (.symPyVerdict o) else .error ()
  | .smt2 o =>
      if o = "PASS" ∨ o = "MIGHT_FAIL" ∨ o = "FAIL" then .ok (.smt2Verdict o)
      else .error ()
  | .malformed => .error ()

/-! ## The analysis_stats consumer loop (`analysis_stats.py`, `AnalysisStats.run`) -/

/-- The body of a message once `body.decode()` and `json.loads` are
applied.  `invalid` stands for a body that is not valid JSON: in
`analysis_stats.py` line 141 `json.loads` runs outside any `try`, so an
invalid body raises an uncaught exception (fatal, before the ack). -/
inductive JsonBody where
  | invalid
  | verdict (d : VerdictDict)
deriving DecidableEq

/-- A delivered message as the consumer observes it.  `termination` is
the truthiness of `properties.headers and properties.headers.get
("termination")`; `htype` is `properties.headers.get("type")` (with
`none` covering both absent header tables and a missing key). -/
structure Delivery where
  termination : Bool
  htype : Option String
  body : JsonBody
deriving DecidableEq

/-- Mutable loop state of `AnalysisStats.run`: the statistics, the
`number_of_results` counter, `last_message_time`, and the
`poison_received` control variable. -/
structure ASState where
  stats : Stats := {}
  number_of_results : Nat := 0
  last_message_time : Nat := 0
  poison_received : Bool := false
deriving DecidableEq

/-- Result of handling one delivered message: the successor state, the
number of `ack_message` calls issued (0 or 1), the number of
`Invalid ... analysis result` errors logged, and whether the handler
raised (`AnalysisStatsError` or an uncaught `json` exception). -/
structure StepOut where
  state : ASState
  acks : Nat
  invalidOutcomeLogs : Nat
  fatal : Bool
deriving DecidableEq

/-- Handling of one delivered message in `AnalysisStats.run`
(`analysis_stats.py`, lines 130-210, the `if method:` block): the
`termination` header is tested first; a sentinel only sets
`poison_received` and is acknowledged; otherwise a missing `type` header
raises before the ack; a `verdict`-typed body is decoded and folded into
the statistics (decode errors raise before the ack); any other `type`
value falls into the `else: pass` branch (line 200-201) and is merely
acknowledged. -/
def asProcessMessage (s : ASState) (now : Nat) (d : Delivery) : StepOut :=
  if d.termination then
    { state := { s with poison_received := true },
      acks := 1, invalidOutcomeLogs := 0, fatal := false }
  else
    match d.htype with
    | none =>
        { state := s, acks := 0, invalidOutcomeLogs := 0, fatal := true }
    | some t =>
        let s := { s with last_message_time := now }
        if t = "verdict" then
          match d.body with
          | .invalid =>
              { state := s, acks := 0, invalidOutcomeLogs := 0, fatal := true }
          | .verdict dd =>
              match VerdictDictCoDec.from_dict dd with
              | .error _ =>
                  { state := s, acks := 0, invalidOutcomeLogs := 0, fatal := true }
              | .ok v =>
                  let p := foldVerdict s.stats v
                  let s2 := { s with stats := p.1,
                                     number_of_results := s.number_of_results + 1 }
                  { state := s2, acks := 1,
                    invalidOutcomeLogs := if p.2 then 1 else 0,
                    fatal := false }
        else
          { state := s, acks := 1, invalidOutcomeLogs := 0, fatal := false }

/-- One loop iteration's environment: the `signal_flags["stop"]` value
observed at the top of the iteration (after any pause busy-wait), the
clock value at the timeout check, and the poll result (`none` when
`get_message` returns no message). -/
structure Iter where
  stopFlag : Bool
  now : Nat
  poll : Option Delivery
deriving DecidableEq

/-- How a modelled run ended: `running` means the supplied iteration
list was exhausted with the `while` condition still true (the loop has
not exited yet); `terminated` means the `while` condition became false;
`fatal` means an exception was raised out of the loop. -/
inductive RunStatus where
  | running
  | terminated
  | fatal
deriving DecidableEq

/-- Result of a modelled consumer run: final state, the values of the
`stop` and `timeout` control variables, the total number of ack calls,
the total number of `Invalid ... analysis result` logs, and the status. -/
structure RunResult where
  state : ASState
  stop : Bool
  timeout : Bool
  acks : Nat
  invalidOutcomeLogs : Nat
  status : RunStatus
deriving DecidableEq

/-- The timeout test of the consumer loops
(`analysis_stats.py` line 120, `events_writer.py` line 101,
`results_logger.py` line 109, `log_analyzer_sh.py` line 178):
`0 < config.timeout < (time.time() - last_message_time)`. -/
def consumerTimeoutCheck (timeout now last : Nat) : Bool :=
  0 < timeout && timeout < now - last

/-- The receive loop of `AnalysisStats.run` (`analysis_stats.py`, lines
104-210): `while not poison_received and not stop and not timeout`, with
the stop flag and the timeout test evaluated each iteration and the
message processed only if neither fired. -/
def asRun (timeout : Nat) (s : ASState) : List Iter → RunResult
  | [] => ⟨s, false, false, 0, 0, .running⟩
  | i :: rest =>
      if s.poison_received then ⟨s, false, false, 0, 0, .terminated⟩
      else
        let stop := i.stopFlag
        let timedOut := consumerTimeoutCheck timeout i.now s.last_message_time
        if stop || timedOut then ⟨s, stop, timedOut, 0, 0, .terminated⟩
        else
          match i.poll with
          | none => asRun timeout s rest
          | some d =>
              let o := asProcessMessage s i.now d
              if o.fatal then
                ⟨o.state, stop, timedOut, o.acks, o.invalidOutcomeLogs, .fatal⟩
              else if o.state.poison_received then
                ⟨o.state, false, false, o.acks, o.invalidOutcomeLogs, .terminated⟩
              else
                let r := asRun timeout o.state rest
                ⟨r.state, r.stop, r.timeout, o.acks + r.acks,
                  o.invalidOutcomeLogs + r.invalidOutcomeLogs, r.status⟩

/-- The final summary of `AnalysisStats.run` (`analysis_stats.py`, lines
231-238), reduced to the outcome word and the reason fragment of the
logged line `Process <word>, <reason>.`. -/
def asSummary (poison stop timeout : Bool) : String × String :=
  if poison then ("COMPLETED", "poison pill received")
  else if stop then ("STOPPED", "SIGINT received")
  else if timeout then ("STOPPED", "message reception timeout reached")
  else ("STOPPED", "unknown reason")

/-! ## The events_writer consumer loop (`events_writer.py`, `EventsWriter.run`) -/

/-- An event record: the ordered tuple of typed fields of spec section 3
(timestamp, source, kind, payload), as produced by the external event
codec. -/
structure Event where
  time : Nat
  src : String
  kind : String
  payload : String
deriving DecidableEq

/-- Wire-level event dictionaries (the result of `json.loads` on an
event body). -/
inductive EventDict where
  | wellFormed (e : Event)
  | malformed
deriving DecidableEq

/-- Modelled from the spec: `EventDictCoDec.from_dict` of the external
`rt_rabbitmq_wrapper` package; decoding validates the dictionary shape
and raises `EventDictError` on a malformed structure (spec section
4.4). -/
def EventDictCoDec.from_dict : EventDict → Except Unit Event
  | .wellFormed e => .ok e
  | .malformed => .error ()

/-- Modelled from the spec: `EventDictCoDec.to_dict`, the exact inverse
of `from_dict` (spec section 4.4). -/
def EventDictCoDec.to_dict (e : Event) : EventDict :=
  .wellFormed e

/-- Modelled from the spec: `EventCSVCoDec.to_csv`, the canonical CSV
serialization of an event (spec section 3). -/
def EventCSVCoDec.to_csv (e : Event) : String :=
  toString e.time ++ "," ++ e.src ++ "," ++ e.kind ++ "," ++ e.payload

/-- Splitting a line at commas (a computable stand-in for
`String.splitOn ","`). -/
def splitCSV (s : String) : List String :=
  (s.data.foldr
    (fun c acc =>
      match acc with
      | [] => if c = ',' then [[], []] else [[c]]
      | f :: fs => if c = ',' then [] :: f :: fs else (c :: f) :: fs)
    [[]]).map fun cs => String.mk cs

/-- Parsing a decimal numeral (a computable stand-in for
`String.toNat?`). -/
def csvNat? (cs : List Char) : Option Nat :=
  if cs ≠ [] ∧ cs.all (fun c => c.isDigit)
  then some (cs.foldl (fun n c => 10 * n + (c.toNat - 48)) 0)
  else none

/-- Modelled from the spec: `EventCSVCoDec.from_csv`, the CSV → event
decoder; raises `EventCSVError` when the line does not have the
four-field shape or the timestamp is not numeric (spec section 4.4). -/
def EventCSVCoDec.from_csv (s : String) : Except Unit Event :=
  match splitCSV s with
  | [t, src, kind, payload] =>
      match csvNat? t.data with
      | some n => .ok ⟨n, src, kind, payload⟩
      | none => .error ()
  | _ => .error ()

/-- A decoded body on the event stream. -/
inductive WBody where
  | invalid
  | event (d : EventDict)
deriving DecidableEq

/-- A message as `EventsWriter.run` observes it; the writer only
inspects the `termination` header and then decodes every non-sentinel
body (`events_writer.py`, lines 113-137). -/
structure WDelivery where
  termination : Bool
  body : WBody
deriving DecidableEq

/-- Mutable loop state of `EventsWriter.run`: the CSV lines written to
the output file, the event counter, `last_message_time` and
`poison_received`. -/
structure WState where
  output : List String := []
  number_of_events : Nat := 0
  last_message_time : Nat := 0
  poison_received : Bool := false
deriving DecidableEq

/-- Result of handling one delivered message in `EventsWriter.run`. -/
structure WStepOut where
  state : WState
  acks : Nat
  fatal : Bool
deriving DecidableEq

/-- Handling of one delivered message in `EventsWriter.run`
(`events_writer.py`, lines 111-143): the `termination` header is tested
first; a sentinel only sets `poison_received` and is acknowledged;
otherwise `last_message_time` is refreshed (line 118), the body is
decoded (a `json.loads` failure at line 120 and a codec error at lines
124-129 both raise before the ack) and on success its CSV rendering is
written and the message acknowledged. -/
def wProcessMessage (s : WState) (now : Nat) (d : WDelivery) : WStepOut :=
  if d.termination then
    { state := { s with poison_received := true }, acks := 1, fatal := false }
  else
    let s := { s with last_message_time := now }
    match d.body with
    | .invalid => { state := s, acks := 0, fatal := true }
    | .event dd =>
        match EventDictCoDec.from_dict dd with
        | .error _ => { state := s, acks := 0, fatal := true }
        | .ok e =>
            { state := { s with output := s.output ++ [EventCSVCoDec.to_csv e],
                                number_of_events := s.number_of_events + 1 },
              acks := 1, fatal := false }

/-- One iteration's environment for the writer loop. -/
structure WIter where
  stopFlag : Bool
  now : Nat
  poll : Option WDelivery
deriving DecidableEq

/-- Result of a modelled writer run (`abort` is the writer's name for
its timeout control variable, `events_writer.py` line 84). -/
structure WRunResult where
  state : WState
  stop : Bool
  abort : Bool
  acks : Nat
  status : RunStatus
deriving DecidableEq

/-- The receive loop of `EventsWriter.run` (`events_writer.py`, lines
85-143): `while not poison_received and not stop and not abort`. -/
def wRun (timeout : Nat) (s : WState) : List WIter → WRunResult
  | [] => ⟨s, false, false, 0, .running⟩
  | i :: rest =>
      if s.poison_received then ⟨s, false, false, 0, .terminated⟩
      else
        let stop := i.stopFlag
        let ab := consumerTimeoutCheck timeout i.now s.last_message_time
        if stop || ab then ⟨s, stop, ab, 0, .terminated⟩
        else
          match i.poll with
          | none => wRun timeout s rest
          | some d =>
              let o := wProcessMessage s i.now d
              if o.fatal then ⟨o.state, stop, ab, o.acks, .fatal⟩
              else if o.state.poison_received then
                ⟨o.state, false, false, o.acks, .terminated⟩
              else
                let r := wRun timeout o.state rest
                ⟨r.state, r.stop, r.abort, o.acks + r.acks, r.status⟩

/-- The final summary of `EventsWriter.run` (`events_writer.py`, lines
147-154), reduced to the outcome word and the reason fragment. -/
def wSummary (poison stop abort : Bool) : String × String :=
  if poison then ("COMPLETED", "poison pill received")
  else if stop then ("STOPPED", "SIGINT received")
  else if abort then ("STOPPED", "event reception timeout reached")
  else ("STOPPED", "unknown reason")

/-! ## The results_logger consumer loop (`results_logger.py`, `AnalysisStats.run`) -/

/-- A specification record, mirroring the classes `PySpecification`,
`SymPySpecification`, `SMT2Specification` of the external package (spec
section 3: property name, timestamp, language tag, body text). -/
inductive Specification where
  | py (property_name : String) (timestamp : Nat) (text : String)
  | sympy (property_name : String) (timestamp : Nat) (text : String)
  | smt2 (property_name : String) (timestamp : Nat) (text : String)
deriving DecidableEq

/-- The body text carried by a specification
(`specification.specification` in the source). -/
def Specification.text : Specification → String
  | .py _ _ t => t
  | .sympy _ _ t => t
  | .smt2 _ _ t => t

/-- Wire-level specification dictionaries. -/
inductive SpecDict where
  | wellFormed (sp : Specification)
  | malformed
deriving DecidableEq

/-- Modelled from the spec: `SpecificationDictCoDec.from_dict` of the
external `rt_rabbitmq_wrapper` package; raises `SpecificationDictError`
on a malformed structure (spec section 4.4). -/
def SpecificationDictCoDec.from_dict : SpecDict → Except Unit Specification
  | .wellFormed sp => .ok sp
  | .malformed => .error ()

/-- The side-file name chosen in `results_logger.py`, lines 160-163:
`{property_name}@{timestamp}.py` for python-like and symbolic
specifications, `{property_name}@{timestamp}.smt2` otherwise. -/
def specFilename : Specification → String
  | .py n ts _ => n ++ "@" ++ toString ts ++ ".py"
  | .sympy n ts _ => n ++ "@" ++ toString ts ++ ".py"
  | .smt2 n ts _ => n ++ "@" ++ toString ts ++ ".smt2"

/-- A decoded body on the results channel: the bytes may parse as a
verdict dictionary, as a specification dictionary, or fail to parse. -/
inductive RLBody where
  | invalid
  | verdict (d : VerdictDict)
  | spec (d : SpecDict)
deriving DecidableEq

/-- A message as the results logger observes it. -/
structure RLDelivery where
  termination : Bool
  htype : Option String
  body : RLBody
deriving DecidableEq

/-- Mutable loop state of the results logger: verdicts written to the
output file, specification side-files written (name and contents),
`number_of_results`, `last_message_time`, `poison_received`. -/
structure RLState where
  written : List Verdict := []
  specFiles : List (String × String) := []
  number_of_results : Nat := 0
  last_message_time : Nat := 0
  poison_received : Bool := false
deriving DecidableEq

/-- Result of handling one delivered message in the results logger. -/
structure RLStepOut where
  state : RLState
  acks : Nat
  fatal : Bool
deriving DecidableEq

/-- Handling of one delivered message in `results_logger.py`, lines
119-178: sentinel first; missing `type` header raises (lines 170-172);
`verdict` bodies are decoded and written (decode failures raise);
`counterexample` bodies are decoded and persisted to a side-file;
any other `type` value hits `case _` (lines 167-169) and raises
`ResultsLoggerError` before the ack. -/
def rlProcessMessage (s : RLState) (now : Nat) (d : RLDelivery) : RLStepOut :=
  if d.termination then
    { state := { s with poison_received := true }, acks := 1, fatal := false }
  else
    match d.htype with
    | none => { state := s, acks := 0, fatal := true }
    | some t =>
        let s := { s with last_message_time := now }
        if t = "verdict" then
          match d.body with
          | .invalid => { state := s, acks := 0, fatal := true }
          | .spec _ => { state := s, acks := 0, fatal := true }
          | .verdict dd =>
              match VerdictDictCoDec.from_dict dd with
              | .error _ => { state := s, acks := 0, fatal := true }
              | .ok v =>
                  let s2 := { s with written := s.written ++ [v],
                                     number_of_results := s.number_of_results + 1 }
                  { state := s2, acks := 1, fatal := false }
        else if t = "counterexample" then
          match d.body with
          | .invalid => { state := s, acks := 0, fatal := true }
          | .verdict _ => { state := s, acks := 0, fatal := true }
          | .spec sd =>
              match SpecificationDictCoDec.from_dict sd with
              | .error _ => { state := s, acks := 0, fatal := true }
              | .ok sp =>
                  let s2 := { s with specFiles :=
                                s.specFiles ++ [(specFilename sp, sp.text)] }
                  { state := s2, acks := 1, fatal := false }
        else
          { state := s, acks := 0, fatal := true }

/-- The final summary of the results logger (`results_logger.py`, lines
182-189), reduced to the outcome word and the reason fragment; the
strings coincide with those of `analysis_stats.py`. -/
def rlSummary (poison stop timeout : Bool) : String × String :=
  if poison then ("COMPLETED", "poison pill received")
  else if stop then ("STOPPED", "SIGINT received")
  else if timeout then ("STOPPED", "message reception timeout reached")
  else ("STOPPED", "unknown reason")

/-! ## The events_reader producer loop (`events_reader.py`, `EventsReader.run`) -/

/-- One iteration's environment for the reader loop: the stop flag
observed at the top of the iteration and the clock value at the timeout
check. -/
structure RObs where
  stopFlag : Bool
  now : Nat
deriving DecidableEq

/-- The body of a message published by the reader: the JSON-serialized
event dictionary for a real payload, or the empty string of the
sentinel. -/
inductive SentBody where
  | empty
  | eventPayload (d : EventDict)
deriving DecidableEq

/-- A message published on the events exchange, with the value of its
`termination` header. -/
structure SentMsg where
  body : SentBody
  termination : Bool
deriving DecidableEq

/-- The timeout test of the reader loops (`events_reader.py` line 61 and
`rt_events_reader_sh.py` line 166):
`config.timeout != 0 and time.time() - start_time_epoch >= config.timeout`,
measured from the start of the run. -/
def readerTimeoutCheck (timeout now start : Nat) : Bool :=
  timeout != 0 && timeout ≤ now - start

/-- Result of a modelled reader run: the event counter, the messages
published on the events exchange in order, the `completed`, `stop` and
`timeout` control variables, and whether an `EventsReaderError` was
raised. -/
structure ReaderResult where
  number_of_events : Nat
  sent : List SentMsg
  completed : Bool
  stop : Bool
  timeout : Bool
  fatal : Bool
deriving DecidableEq

/-- The `for line in self._input_file` loop of `EventsReader.run`
(`events_reader.py`, lines 45-94): each iteration re-reads the stop
flag, evaluates the start-relative timeout test, breaks when either
fired, and otherwise parses the CSV line (a parse error raises
`EventsReaderError`) and publishes the event; the `for`/`else` sets
`completed` when the file is exhausted without a break.  Input lines are
given already stripped of their trailing newline
(`line.rstrip` at line 66). -/
def readerLoop (timeout start : Nat) : List (String × RObs) → ReaderResult
  | [] => ⟨0, [], true, false, false, false⟩
  | (line, o) :: rest =>
      let stop := o.stopFlag
      let timedOut := readerTimeoutCheck timeout o.now start
      if stop || timedOut then ⟨0, [], false, stop, timedOut, false⟩
      else
        match EventCSVCoDec.from_csv line with
        | .error _ => ⟨0, [], false, false, false, true⟩
        | .ok e =>
            let r := readerLoop timeout start rest
            ⟨r.number_of_events + 1,
             ⟨.eventPayload (EventDictCoDec.to_dict e), false⟩ :: r.sent,
             r.completed, r.stop, r.timeout, r.fatal⟩

/-- The full producer run (`events_reader.py`, lines 45-108): the read
loop followed — on every non-raising exit path — by the publication of
exactly one poison pill with empty body and header `termination = True`
on the same events exchange connection (lines 96-103); a raised
`EventsReaderError` skips the pill. -/
def readerRun (timeout start : Nat) (input : List (String × RObs)) : ReaderResult :=
  let r := readerLoop timeout start input
  if r.fatal then r
  else { r with sent := r.sent ++ [⟨.empty, true⟩] }

/-- The final summary of `EventsReader.run` (`events_reader.py`, lines
112-119), reduced to the outcome word and the reason fragment; note the
order: `completed` first, then `timeout`, then `stop`. -/
def readerSummary (completed stop timeout : Bool) : String × String :=
  if completed then ("COMPLETED", "EOF reached")
  else if timeout then ("COMPLETED", "timeout reached")
  else if stop then ("STOPPED", "SIGINT received")
  else ("STOPPED", "unknown reason")

/-! ## The log_analyzer consumer loop (`log_analyzer_sh.py`, `main`) -/

/-- A message as the log analyzer observes it: the `termination` header
and the decoded log line (the line-to-dictionary reshaping of
`log_analyzer_sh.py` lines 205-206 is plumbing no claim depends on; the
state stores the received entry). -/
structure LaDelivery where
  termination : Bool
  entry : String
deriving DecidableEq

/-- Mutable loop state of the log analyzer. -/
structure LaState where
  written : List String := []
  last_message_time : Nat := 0
  poison_received : Bool := false
deriving DecidableEq

/-- Handling of one delivered message in `log_analyzer_sh.py`, lines
189-215: sentinel sets `poison_received`; otherwise the entry is
written; either way the message is acknowledged. -/
def laProcessMessage (s : LaState) (now : Nat) (d : LaDelivery) : LaState × Nat :=
  if d.termination then ({ s with poison_received := true }, 1)
  else ({ s with written := s.written ++ [d.entry],
                 last_message_time := now }, 1)

/-- One iteration's environment for the log analyzer loop. -/
structure LaIter where
  stopFlag : Bool
  now : Nat
  poll : Option LaDelivery
deriving DecidableEq

/-- Result of a modelled log analyzer run. -/
structure LaRunResult where
  state : LaState
  stop : Bool
  abort : Bool
  acks : Nat
  status : RunStatus
deriving DecidableEq

/-- The receive loop of `log_analyzer_sh.py`, lines 162-215:
`while not poison_received and not stop and not abort`, with the same
idle-timeout test as the other consumers (line 178). -/
def laRun (timeout : Nat) (s : LaState) : List LaIter → LaRunResult
  | [] => ⟨s, false, false, 0, .running⟩
  | i :: rest =>
      if s.poison_received then ⟨s, false, false, 0, .terminated⟩
      else
        let stop := i.stopFlag
        let ab := consumerTimeoutCheck timeout i.now s.last_message_time
        if stop || ab then ⟨s, stop, ab, 0, .terminated⟩
        else
          match i.poll with
          | none => laRun timeout s rest
          | some d =>
              let o := laProcessMessage s i.now d
              if o.1.poison_received then ⟨o.1, false, false, o.2, .terminated⟩
              else
                let r := laRun timeout o.1 rest
                ⟨r.state, r.stop, r.abort, o.2 + r.acks, r.status⟩

/-- The reason word of the log analyzer summary (`log_analyzer_sh.py`,
lines 217-225): this is the one consumer that reports a timed-out run
as `ABORTED`. -/
def laReason (poison stop abort : Bool) : String :=
  if poison then "COMPLETED"
  else if stop then "STOPPED"
  else if abort then "ABORTED"
  else "STOPPED by an unknown reason"

/-! ## Theorems -/

/-- Claim C7: folding the verdict sequence TaskStarted, TaskStarted,
TaskFinished, CheckpointReached, PyVerdict(PASS), SMT2Verdict(MIGHT_FAIL)
into fresh statistics yields task_started=2, task_finished=1,
checkpoints_reached=1, analyzed_props=2, passed_props=1, failed_props=1
(the SMT2 MIGHT_FAIL outcome lands in the failed tally) and
might_fail_props=0. -/
theorem C7_aggregator_scenario :
    (foldVerdicts {}
      [.taskStarted "t1" 1, .taskStarted "t2" 2, .taskFinished "t1" 3,
       .checkpointReached "c1" 4, .pyVerdict "PASS",
       .smt2Verdict "MIGHT_FAIL"]).1 =
    { trace := [.taskStarted "t1" 1, .taskStarted "t2" 2, .taskFinished "t1" 3,
                .checkpointReached "c1" 4],
      task_started := 2, task_finished := 1, checkpoints_reached := 1,
      analyzed_props := 2, passed_props := 1, might_fail_props := 0,
      failed_props := 1 } := by
  decide

/-- Claim C1: for every message obtained by a consumer bridge the
termination header is checked before any attempt to decode the body
(the handler's result does not depend on the body when the header is
true), and when it is true the consumer sets `poison_received`, does not
decode the body or touch its statistics/output, still acknowledges the
sentinel itself, exits its receive loop at once, and the summary for a
poison exit reports the run as COMPLETED. -/
theorem C1_sentinel_before_decode :
    (∀ (s : ASState) (now : Nat) (ht : Option String) (b : JsonBody),
        asProcessMessage s now ⟨true, ht, b⟩ =
          ⟨{ s with poison_received := true }, 1, 0, false⟩) ∧
    (∀ (s : WState) (now : Nat) (b : WBody),
        wProcessMessage s now ⟨true, b⟩ =
          ⟨{ s with poison_received := true }, 1, false⟩) ∧
    (∀ (T : Nat) (s : ASState) (i : Iter) (d : Delivery) (rest : List Iter),
        s.poison_received = false →
        i.stopFlag = false →
        consumerTimeoutCheck T i.now s.last_message_time = false →
        i.poll = some d →
        d.termination = true →
        asRun T s (i :: rest) =
          ⟨{ s with poison_received := true }, false, false, 1, 0, .terminated⟩) ∧
    (∀ (T : Nat) (s : WState) (i : WIter) (d : WDelivery) (rest : List WIter),
        s.poison_received = false →
        i.stopFlag = false →
        consumerTimeoutCheck T i.now s.last_message_time = false →
        i.poll = some d →
        d.termination = true →
        wRun T s (i :: rest) =
          ⟨{ s with poison_received := true }, false, false, 1, .terminated⟩) ∧
    asSummary true false false = ("COMPLETED", "poison pill received") ∧
    wSummary true false false = ("COMPLETED", "poison pill received") := by
  refine ⟨?_, ?_, ?_, ?_, rfl, rfl⟩
  · intro s now ht b
    simp [asProcessMessage]
  · intro s now b
    simp [wProcessMessage]
  · intro T s i d rest hp hs htm hpoll hd
    obtain ⟨sf, n, poll⟩ := i
    simp only at hs hpoll htm
    subst hs hpoll
    simp [asRun, hp, htm, asProcessMessage, hd]
  · intro T s i d rest hp hs htm hpoll hd
    obtain ⟨sf, n, poll⟩ := i
    simp only at hs hpoll htm
    subst hs hpoll
    simp [wRun, hp, htm, wProcessMessage, hd]

/-- Witness for C1 at a concrete sentinel delivery (an invalid body
shows the body is never decoded). -/
theorem C1_witness :
    asRun 0 {} [⟨false, 5, some ⟨true, none, .invalid⟩⟩] =
      ⟨{ poison_received := true }, false, false, 1, 0, .terminated⟩ :=
  C1_sentinel_before_decode.2.2.1 0 {} ⟨false, 5, some ⟨true, none, .invalid⟩⟩
    ⟨true, none, .invalid⟩ [] rfl rfl (by decide) rfl rfl

/-- Claim C2: a consumer step that does not raise acknowledges its
message exactly once, a step that raises acknowledges nothing, and in
particular a `verdict`-typed (resp. event) body whose decode fails makes
the consumer terminate with an error without acknowledging that
message. -/
theorem C2_ack_exactly_once :
    (∀ (s : ASState) (now : Nat) (d : Delivery),
        ((asProcessMessage s now d).fatal = false →
          (asProcessMessage s now d).acks = 1) ∧
        ((asProcessMessage s now d).fatal = true →
          (asProcessMessage s now d).acks = 0)) ∧
    (∀ (s : WState) (now : Nat) (d : WDelivery),
        ((wProcessMessage s now d).fatal = false →
          (wProcessMessage s now d).acks = 1) ∧
        ((wProcessMessage s now d).fatal = true →
          (wProcessMessage s now d).acks = 0)) ∧
    (∀ (s : ASState) (now : Nat) (dd : VerdictDict),
        VerdictDictCoDec.from_dict dd = .error () →
        (asProcessMessage s now ⟨false, some "verdict", .verdict dd⟩).fatal = true ∧
        (asProcessMessage s now ⟨false, some "verdict", .verdict dd⟩).acks = 0) ∧
    (∀ (s : WState) (now : Nat) (dd : EventDict),
        EventDictCoDec.from_dict dd = .error () →
        (wProcessMessage s now ⟨false, .event dd⟩).fatal = true ∧
        (wProcessMessage s now ⟨false, .event dd⟩).acks = 0) := by
  refine ⟨?_, ?_, ?_, ?_⟩
  · intro s now d
    obtain ⟨term, ht, b⟩ := d
    cases term
    · cases ht with
      | none => simp [asProcessMessage]
      | some t =>
          by_cases htv : t = "verdict"
          · subst htv
            cases b with
            | invalid => simp [asProcessMessage]
            | verdict dd =>
                rcases hfd : VerdictDictCoDec.from_dict dd with e | v <;>
                  simp [asProcessMessage, hfd]
          · simp [asProcessMessage, htv]
    · simp [asProcessMessage]
  · intro s now d
    obtain ⟨term, b⟩ := d
    cases term
    · cases b with
      | invalid => simp [wProcessMessage]
      | event dd =>
          rcases hfd : EventDictCoDec.from_dict dd with e | v <;>
            simp [wProcessMessage, hfd]
    · simp [wProcessMessage]
  · intro s now dd hfd
    simp [asProcessMessage, hfd]
  · intro s now dd hfd
    simp [wProcessMessage, hfd]

/-- Witness for C2: a sentinel is acknowledged exactly once, and a
malformed verdict body is fatal and unacknowledged, at concrete
inputs. -/
theorem C2_witness :
    (asProcessMessage {} 3 ⟨true, none, .invalid⟩).acks = 1 ∧
    (asProcessMessage {} 3 ⟨false, some "verdict", .verdict .malformed⟩).fatal = true ∧
    (asProcessMessage {} 3 ⟨false, some "verdict", .verdict .malformed⟩).acks = 0 :=
  ⟨(C2_ack_exactly_once.1 {} 3 ⟨true, none, .invalid⟩).1 rfl,
   (C2_ack_exactly_once.2.2.1 {} 3 .malformed rfl).1,
   (C2_ack_exactly_once.2.2.1 {} 3 .malformed rfl).2⟩

/-- Claim C3, counterexample: a concrete `analysis_stats` run that
terminates because its 5-second timeout expired without a sentinel
reports the outcome word STOPPED, not ABORTED; and a concrete
`events_reader` run that terminates on timeout reports the outcome word
COMPLETED — the very word the claim reserves for sentinel reception or
source exhaustion. -/
theorem C3_counterexample :
    (asRun 5 {} [⟨false, 10, none⟩]).status = .terminated ∧
    (asRun 5 {} [⟨false, 10, none⟩]).timeout = true ∧
    (asRun 5 {} [⟨false, 10, none⟩]).state.poison_received = false ∧
    (asSummary (asRun 5 {} [⟨false, 10, none⟩]).state.poison_received
        (asRun 5 {} [⟨false, 10, none⟩]).stop
        (asRun 5 {} [⟨false, 10, none⟩]).timeout).1 = "STOPPED" ∧
    (asSummary (asRun 5 {} [⟨false, 10, none⟩]).state.poison_received
        (asRun 5 {} [⟨false, 10, none⟩]).stop
        (asRun 5 {} [⟨false, 10, none⟩]).timeout).1 ≠ "ABORTED" ∧
    (readerRun 5 0 [("1,a,b,c", ⟨false, 6⟩)]).timeout = true ∧
    (readerRun 5 0 [("1,a,b,c", ⟨false, 6⟩)]).completed = false ∧
    (readerSummary (readerRun 5 0 [("1,a,b,c", ⟨false, 6⟩)]).completed
        (readerRun 5 0 [("1,a,b,c", ⟨false, 6⟩)]).stop
        (readerRun 5 0 [("1,a,b,c", ⟨false, 6⟩)]).timeout).1 = "COMPLETED" := by
  decide

/-- Claim C3 as amended: only the log_analyzer bridge reports a
timed-out run as ABORTED; the analysis_stats, events_writer and
results_logger consumers report it as STOPPED with a timeout-specific
reason, still distinguishable from COMPLETED; and the events_reader
producer reports its own timeout with the outcome word COMPLETED
(reason "timeout reached"). -/
theorem C3_amended_timeout_reporting :
    (∀ (T : Nat) (s : LaState) (iters : List LaIter),
        (laRun T s iters).status = .terminated →
        (laRun T s iters).abort = true →
        (laRun T s iters).state.poison_received = false →
        (laRun T s iters).stop = false →
        laReason (laRun T s iters).state.poison_received (laRun T s iters).stop
          (laRun T s iters).abort = "ABORTED") ∧
    (∀ (T : Nat) (s : ASState) (iters : List Iter),
        (asRun T s iters).status = .terminated →
        (asRun T s iters).timeout = true →
        (asRun T s iters).state.poison_received = false →
        (asRun T s iters).stop = false →
        asSummary (asRun T s iters).state.poison_received (asRun T s iters).stop
            (asRun T s iters).timeout =
          ("STOPPED", "message reception timeout reached") ∧
        (asSummary (asRun T s iters).state.poison_received (asRun T s iters).stop
            (asRun T s iters).timeout).1 ≠ "COMPLETED") ∧
    (∀ (T : Nat) (s : WState) (iters : List WIter),
        (wRun T s iters).status = .terminated →
        (wRun T s iters).abort = true →
        (wRun T s iters).state.poison_received = false →
        (wRun T s iters).stop = false →
        wSummary (wRun T s iters).state.poison_received (wRun T s iters).stop
            (wRun T s iters).abort =
          ("STOPPED", "event reception timeout reached") ∧
        (wSummary (wRun T s iters).state.poison_received (wRun T s iters).stop
            (wRun T s iters).abort).1 ≠ "COMPLETED") ∧
    (rlSummary false false true = ("STOPPED", "message reception timeout reached")) ∧
    (∀ (T start : Nat) (input : List (String × RObs)),
        (readerRun T start input).timeout = true →
        (readerRun T start input).completed = false →
        readerSummary (readerRun T start input).completed
            (readerRun T start input).stop (readerRun T start input).timeout =
          ("COMPLETED", "timeout reached")) := by
  refine ⟨?_, ?_, ?_, rfl, ?_⟩
  · intro T s iters _ hab hp hs
    rw [hab, hp, hs]
    rfl
  · intro T s iters _ ht hp hs
    rw [ht, hp, hs]
    exact ⟨rfl, by decide⟩
  · intro T s iters _ hab hp hs
    rw [hab, hp, hs]
    exact ⟨rfl, by decide⟩
  · intro T start input ht hc
    rw [ht, hc]
    cases hs : (readerRun T start input).stop <;> rfl

/-- Witness for the amended C3 at concrete timed-out runs of each
bridge. -/
theorem C3_amended_witness :
    laReason (laRun 5 {} [⟨false, 10, none⟩]).state.poison_received
        (laRun 5 {} [⟨false, 10, none⟩]).stop
        (laRun 5 {} [⟨false, 10, none⟩]).abort = "ABORTED" ∧
    asSummary (asRun 5 {} [⟨false, 10, none⟩]).state.poison_received
        (asRun 5 {} [⟨false, 10, none⟩]).stop
        (asRun 5 {} [⟨false, 10, none⟩]).timeout =
      ("STOPPED", "message reception timeout reached") ∧
    wSummary (wRun 5 {} [⟨false, 10, none⟩]).state.poison_received
        (wRun 5 {} [⟨false, 10, none⟩]).stop
        (wRun 5 {} [⟨false, 10, none⟩]).abort =
      ("STOPPED", "event reception timeout reached") ∧
    readerSummary (readerRun 5 0 [("1,a,b,c", ⟨false, 6⟩)]).completed
        (readerRun 5 0 [("1,a,b,c", ⟨false, 6⟩)]).stop
        (readerRun 5 0 [("1,a,b,c", ⟨false, 6⟩)]).timeout =
      ("COMPLETED", "timeout reached") :=
  ⟨C3_amended_timeout_reporting.1 5 {} [⟨false, 10, none⟩] rfl rfl rfl rfl,
   (C3_amended_timeout_reporting.2.1 5 {} [⟨false, 10, none⟩] rfl rfl rfl rfl).1,
   (C3_amended_timeout_reporting.2.2.1 5 {} [⟨false, 10, none⟩] rfl rfl rfl rfl).1,
   C3_amended_timeout_reporting.2.2.2.2 5 0 [("1,a,b,c", ⟨false, 6⟩)] rfl rfl⟩

/-- Claim C4, counterexample: the events_reader bridge with timeout 5,
started at time 0, sends a payload at time 4 and, at its next iteration
at time 6, transitions to timed-out termination although the idle time
since that last payload is 6 - 4 = 2, which does not exceed 5 — its
check compares the elapsed time since process start (with ≥), not the
idle time since the last payload. -/
theorem C4_counterexample :
    (readerRun 5 0 [("1,a,b,c", ⟨false, 4⟩), ("2,a,b,c", ⟨false, 6⟩)]).timeout = true ∧
    (readerRun 5 0 [("1,a,b,c", ⟨false, 4⟩), ("2,a,b,c", ⟨false, 6⟩)]).number_of_events = 1 ∧
    ¬ (5 < 6 - 4) := by
  decide

/-- Claim C4 as amended: the consumer bridges time out exactly when the
configured positive timeout is strictly exceeded by the idle time since
the last payload, a timeout of zero disables the check, and an empty
poll leaves the loop state (hence the idle clock) untouched; the
events_reader producer instead times out exactly when the elapsed time
since process start reaches (≥) a nonzero timeout, regardless of the
last payload. -/
theorem C4_amended_timeout_semantics :
    (∀ (T now last : Nat),
        consumerTimeoutCheck T now last = true ↔ (0 < T ∧ T < now - last)) ∧
    (∀ (now last : Nat), consumerTimeoutCheck 0 now last = false) ∧
    (∀ (now start : Nat), readerTimeoutCheck 0 now start = false) ∧
    (∀ (T : Nat) (s : ASState) (n : Nat) (rest : List Iter),
        s.poison_received = false →
        consumerTimeoutCheck T n s.last_message_time = false →
        asRun T s (⟨false, n, none⟩ :: rest) = asRun T s rest) ∧
    (∀ (T now start : Nat),
        readerTimeoutCheck T now start = true ↔ (T ≠ 0 ∧ T ≤ now - start)) := by
  refine ⟨?_, ?_, ?_, ?_, ?_⟩
  · intro T now last
    simp [consumerTimeoutCheck]
  · intro now last
    simp [consumerTimeoutCheck]
  · intro now start
    simp [readerTimeoutCheck]
  · intro T s n rest hp htm
    simp [asRun, hp, htm]
  · intro T now start
    simp [readerTimeoutCheck]

/-- Witness for the amended C4 at concrete clock values: the strict-
excess consumer check, the disabled zero timeout, an empty poll that
changes nothing, and the start-relative reader check. -/
theorem C4_amended_witness :
    consumerTimeoutCheck 5 10 4 = true ∧
    consumerTimeoutCheck 5 9 4 = false ∧
    consumerTimeoutCheck 0 1000 0 = false ∧
    readerTimeoutCheck 0 1000 0 = false ∧
    asRun 5 {} [⟨false, 3, none⟩] = asRun 5 {} [] ∧
    readerTimeoutCheck 5 5 0 = true :=
  ⟨(C4_amended_timeout_semantics.1 5 10 4).mpr (by decide),
   by decide,
   C4_amended_timeout_semantics.2.1 1000 0,
   C4_amended_timeout_semantics.2.2.1 1000 0,
   C4_amended_timeout_semantics.2.2.2.1 5 {} 3 [] rfl (by decide),
   (C4_amended_timeout_semantics.2.2.2.2 5 5 0).mpr (by decide)⟩

/-- Every message published inside the reader's read loop is a real
payload: its `termination` header is false. -/
theorem readerLoop_sent_no_sentinel (T start : Nat) :
    ∀ (input : List (String × RObs)),
      ∀ m ∈ (readerLoop T start input).sent, m.termination = false := by
  intro input
  induction input with
  | nil => intro m hm; simp [readerLoop] at hm
  | cons p rest ih =>
      obtain ⟨line, o⟩ := p
      intro m hm
      simp only [readerLoop] at hm
      split at hm
      · simp at hm
      · split at hm
        · simp at hm
        · simp only [List.mem_cons] at hm
          rcases hm with hm | hm
          · subst hm; rfl
          · exact ih m hm

/-- Claim C5: on every termination path of the producer read loop that
does not raise (source EOF, operator stop, or timeout), exactly one
sentinel message — empty body, header `termination = true` — is
published to the same events exchange as the real payloads, after all
of them and before the connection is closed. -/
theorem C5_sentinel_exactly_once :
    ∀ (T start : Nat) (input : List (String × RObs)),
      (readerRun T start input).fatal = false →
      ((readerRun T start input).sent.countP (fun m => m.termination) = 1 ∧
       ∃ pre, (readerRun T start input).sent = pre ++ [⟨.empty, true⟩] ∧
              ∀ m ∈ pre, m.termination = false) := by
  intro T start input hf
  have hloop : (readerLoop T start input).fatal = false := by
    by_contra hc
    rw [Bool.not_eq_false] at hc
    rw [readerRun] at hf
    simp [hc] at hf
  have hsent : (readerRun T start input).sent =
      (readerLoop T start input).sent ++ [⟨.empty, true⟩] := by
    rw [readerRun]
    simp [hloop]
  have hmem := readerLoop_sent_no_sentinel T start input
  constructor
  · rw [hsent, List.countP_append]
    have h0 : (readerLoop T start input).sent.countP (fun m => m.termination) = 0 := by
      rw [List.countP_eq_zero]
      intro m hm
      simp [hmem m hm]
    rw [h0]
    rfl
  · exact ⟨(readerLoop T start input).sent, hsent, hmem⟩

/-- Witness for C5: a one-line source read to EOF publishes its payload
followed by exactly one sentinel. -/
theorem C5_witness :
    (readerRun 0 0 [("1,a,b,c", ⟨false, 9⟩)]).fatal = false ∧
    (readerRun 0 0 [("1,a,b,c", ⟨false, 9⟩)]).sent.countP (fun m => m.termination) = 1 :=
  ⟨by decide, (C5_sentinel_exactly_once 0 0 [("1,a,b,c", ⟨false, 9⟩)] (by decide)).1⟩

/-- Claim C6, counterexample: the analysis_stats consumer, handed a
non-sentinel message on its result channel whose `type` header is
present but carries the unrecognized value "log_entry", raises no error
at all — it silently skips the message (the `else: pass` branch), even
acknowledges it, and leaves its statistics untouched. -/
theorem C6_counterexample :
    (asProcessMessage {} 7 ⟨false, some "log_entry", .invalid⟩).fatal = false ∧
    (asProcessMessage {} 7 ⟨false, some "log_entry", .invalid⟩).acks = 1 ∧
    (asProcessMessage {} 7 ⟨false, some "log_entry", .invalid⟩).state.stats = {} ∧
    (asProcessMessage {} 7 ⟨false, some "log_entry", .invalid⟩).state.number_of_results
      = 0 := by
  decide

/-- Claim C6 as amended: only the results_logger treats a present but
unrecognized `type` header value as a fatal protocol violation (raising
before the ack); the analysis_stats consumer silently skips and still
acknowledges any non-sentinel message whose `type` value is not
"verdict", updating only its idle clock. -/
theorem C6_amended_unknown_type :
    (∀ (s : RLState) (now : Nat) (b : RLBody) (t : String),
        t ≠ "verdict" → t ≠ "counterexample" →
        rlProcessMessage s now ⟨false, some t, b⟩ =
          ⟨{ s with last_message_time := now }, 0, true⟩) ∧
    (∀ (s : ASState) (now : Nat) (b : JsonBody) (t : String),
        t ≠ "verdict" →
        asProcessMessage s now ⟨false, some t, b⟩ =
          ⟨{ s with last_message_time := now }, 1, 0, false⟩) := by
  constructor
  · intro s now b t ht1 ht2
    simp [rlProcessMessage, ht1, ht2]
  · intro s now b t ht
    simp [asProcessMessage, ht]

/-- Witness for the amended C6 at the concrete unrecognized type value
"log_entry". -/
theorem C6_amended_witness :
    rlProcessMessage {} 7 ⟨false, some "log_entry", .invalid⟩ =
      ⟨{ last_message_time := 7 }, 0, true⟩ ∧
    asProcessMessage {} 7 ⟨false, some "log_entry", .invalid⟩ =
      ⟨{ last_message_time := 7 }, 1, 0, false⟩ :=
  ⟨C6_amended_unknown_type.1 {} 7 .invalid "log_entry" (by decide) (by decide),
   C6_amended_unknown_type.2 {} 7 .invalid "log_entry" (by decide)⟩

/-- Claim C8: an analysis verdict whose outcome value lies outside its
variant's fixed domain fails loudly and is never counted as PASS or
FAIL — at the wire level the codec rejects it, making the consumer step
fatal (no ack, statistics untouched), and at the fold level the
defensive `case _` branch reports an error and increments only
`analyzed_props`, leaving the passed/might-fail/failed tallies
unchanged. -/
theorem C8_out_of_domain_outcome :
    (∀ (o : String), o ≠ "PASS" → o ≠ "FAIL" →
        VerdictDictCoDec.from_dict (.py o) = .error () ∧
        VerdictDictCoDec.from_dict (.sympy o) = .error ()) ∧
    (∀ (o : String), o ≠ "PASS" → o ≠ "MIGHT_FAIL" → o ≠ "FAIL" →
        VerdictDictCoDec.from_dict (.smt2 o) = .error ()) ∧
    (∀ (s : ASState) (now : Nat) (o : String), o ≠ "PASS" → o ≠ "FAIL" →
        (asProcessMessage s now ⟨false, some "verdict", .verdict (.py o)⟩).fatal = true ∧
        (asProcessMessage s now ⟨false, some "verdict", .verdict (.py o)⟩).acks = 0 ∧
        (asProcessMessage s now ⟨false, some "verdict", .verdict (.py o)⟩).state.stats
          = s.stats) ∧
    (∀ (st : Stats) (o : String), o ≠ "PASS" → o ≠ "FAIL" →
        foldVerdict st (.pyVerdict o) =
          ({ st with analyzed_props := st.analyzed_props + 1 }, true) ∧
        foldVerdict st (.symPyVerdict o) =
          ({ st with analyzed_props := st.analyzed_props + 1 }, true)) ∧
    (∀ (st : Stats) (o : String), o ≠ "PASS" → o ≠ "MIGHT_FAIL" → o ≠ "FAIL" →
        foldVerdict st (.smt2Verdict o) =
          ({ st with analyzed_props := st.analyzed_props + 1 }, true)) := by
  refine ⟨?_, ?_, ?_, ?_, ?_⟩
  · intro o h1 h2
    constructor <;> simp [VerdictDictCoDec.from_dict, h1, h2]
  · intro o h1 h2 h3
    simp [VerdictDictCoDec.from_dict, h1, h2, h3]
  · intro s now o h1 h2
    have hfd : VerdictDictCoDec.from_dict (.py o) = .error () := by
      simp [VerdictDictCoDec.from_dict, h1, h2]
    simp [asProcessMessage, hfd]
  · intro st o h1 h2
    constructor <;> simp [foldVerdict, h1, h2]
  · intro st o h1 h2 h3
    simp [foldVerdict, h1, h2, h3]

/-- Witness for C8 at the concrete out-of-domain outcome "UNKNOWN". -/
theorem C8_witness :
    VerdictDictCoDec.from_dict (.py "UNKNOWN") = .error () ∧
    (asProcessMessage {} 3 ⟨false, some "verdict", .verdict (.py "UNKNOWN")⟩).fatal
      = true ∧
    foldVerdict {} (.smt2Verdict "UNKNOWN") =
      ({ analyzed_props := 1 }, true) :=
  ⟨(C8_out_of_domain_outcome.1 "UNKNOWN" (by decide) (by decide)).1,
   (C8_out_of_domain_outcome.2.2.1 {} 3 "UNKNOWN" (by decide) (by decide)).1,
   C8_out_of_domain_outcome.2.2.2.2 {} "UNKNOWN" (by decide) (by decide) (by decide)⟩

/-- Whenever the analysis_stats receive loop exits its `while`, at
least one of its termination flags holds. -/
theorem asRun_terminated_flag (T : Nat) :
    ∀ (iters : List Iter) (s : ASState),
      (asRun T s iters).status = .terminated →
      ((asRun T s iters).state.poison_received || (asRun T s iters).stop ||
        (asRun T s iters).timeout) = true := by
  intro iters
  induction iters with
  | nil => intro s h; simp [asRun] at h
  | cons i rest ih =>
      intro s h
      cases hp : s.poison_received with
      | true => simp [asRun, hp]
      | false =>
          cases hg : (i.stopFlag || consumerTimeoutCheck T i.now s.last_message_time) with
          | true =>
              rw [asRun] at h ⊢
              simp only [hp, Bool.false_eq_true, if_false, hg, if_true]
              simp only [Bool.or_eq_true] at hg ⊢
              tauto
          | false =>
              have hs : i.stopFlag = false := by
                cases hsf : i.stopFlag
                · rfl
                · rw [hsf] at hg; simp at hg
              have htm : consumerTimeoutCheck T i.now s.last_message_time = false := by
                cases hc : consumerTimeoutCheck T i.now s.last_message_time
                · rfl
                · rw [hc] at hg; simp at hg
              cases hpoll : i.poll with
              | none =>
                  rw [asRun] at h ⊢
                  simp only [hp, Bool.false_eq_true, if_false, hs, htm, hpoll,
                    Bool.or_self, if_false] at h ⊢
                  exact ih s h
              | some d =>
                  cases hf : (asProcessMessage s i.now d).fatal with
                  | true =>
                      rw [asRun] at h
                      simp [hp, hs, htm, hpoll, hf] at h
                  | false =>
                      cases hpo : (asProcessMessage s i.now d).state.poison_received with
                      | true =>
                          rw [asRun] at h ⊢
                          simp [hp, hs, htm, hpoll, hf, hpo]
                      | false =>
                          rw [asRun] at h ⊢
                          simp only [hp, Bool.false_eq_true, if_false, hs, htm, hpoll,
                            Bool.or_self, Bool.false_or, hf, hpo, if_false] at h ⊢
                          exact ih (asProcessMessage s i.now d).state h

/-- Whenever the reader's read loop finishes without raising, at least
one of its termination flags holds. -/
theorem readerLoop_exit_flag (T start : Nat) :
    ∀ (input : List (String × RObs)),
      (readerLoop T start input).fatal = false →
      ((readerLoop T start input).completed || (readerLoop T start input).stop ||
        (readerLoop T start input).timeout) = true := by
  intro input
  induction input with
  | nil => intro _; simp [readerLoop]
  | cons p rest ih =>
      obtain ⟨line, o⟩ := p
      intro h
      cases hg : (o.stopFlag || readerTimeoutCheck T o.now start) with
      | true =>
          rw [readerLoop] at h ⊢
          simp only [hg, if_true]
          simp only [Bool.or_eq_true] at hg ⊢
          tauto
      | false =>
          rw [readerLoop] at h ⊢
          simp only [hg, Bool.false_eq_true, if_false] at h ⊢
          cases hcsv : EventCSVCoDec.from_csv line with
          | error e =>
              rw [hcsv] at h
              simp at h
          | ok e =>
              rw [hcsv] at h
              exact ih h

/-- A termination flag forces the analysis_stats summary away from the
unknown-reason line. -/
theorem asSummary_not_unknown :
    ∀ (p st t : Bool), (p || st || t) = true →
      asSummary p st t ≠ ("STOPPED", "unknown reason") := by
  decide

/-- A termination flag forces the reader summary away from the
unknown-reason line. -/
theorem readerSummary_not_unknown :
    ∀ (c st t : Bool), (c || st || t) = true →
      readerSummary c st t ≠ ("STOPPED", "unknown reason") := by
  decide

/-- Claim C9: the unknown-reason summary branch is unreachable — when
the analysis_stats consumer loop terminates, one of `poison_received`,
`stop`, `timeout` holds, and when the events_reader producer loop exits
without raising, one of `completed`, `stop`, `timeout` holds; in both
cases the final summary never reports the unknown reason. -/
theorem C9_no_unknown_reason :
    (∀ (T : Nat) (s : ASState) (iters : List Iter),
        (asRun T s iters).status = .terminated →
        ((asRun T s iters).state.poison_received || (asRun T s iters).stop ||
          (asRun T s iters).timeout) = true ∧
        asSummary (asRun T s iters).state.poison_received (asRun T s iters).stop
          (asRun T s iters).timeout ≠ ("STOPPED", "unknown reason")) ∧
    (∀ (T start : Nat) (input : List (String × RObs)),
        (readerLoop T start input).fatal = false →
        ((readerLoop T start input).completed || (readerLoop T start input).stop ||
          (readerLoop T start input).timeout) = true ∧
        readerSummary (readerLoop T start input).completed
          (readerLoop T start input).stop (readerLoop T start input).timeout ≠
          ("STOPPED", "unknown reason")) := by
  constructor
  · intro T s iters h
    have hf := asRun_terminated_flag T iters s h
    exact ⟨hf, asSummary_not_unknown _ _ _ hf⟩
  · intro T start input h
    have hf := readerLoop_exit_flag T start input h
    exact ⟨hf, readerSummary_not_unknown _ _ _ hf⟩

/-- Witness for C9 at a concrete stopped consumer run and a concrete
EOF producer run. -/
theorem C9_witness :
    ((asRun 0 {} [⟨true, 1, none⟩]).state.poison_received ||
      (asRun 0 {} [⟨true, 1, none⟩]).stop || (asRun 0 {} [⟨true, 1, none⟩]).timeout)
      = true ∧
    ((readerLoop 0 0 []).completed || (readerLoop 0 0 []).stop ||
      (readerLoop 0 0 []).timeout) = true :=
  ⟨(C9_no_unknown_reason.1 0 {} [⟨true, 1, none⟩] rfl).1,
   (C9_no_unknown_reason.2 0 0 [] rfl).1⟩

/-- The invariant tying the statistics accumulator to the number of
`Invalid ... analysis result` errors logged so far: the trace length
matches the three process counters, the trace holds only process
verdicts, and the outcome tallies plus the logged errors balance the
analyzed counter. -/
def StatsBalanced (st : Stats) (logs : Nat) : Prop :=
  st.trace.length = st.task_started + st.task_finished + st.checkpoints_reached ∧
  (∀ v ∈ st.trace, v.isProcess = true) ∧
  st.passed_props + st.might_fail_props + st.failed_props + logs = st.analyzed_props

/-- Folding one verdict preserves the statistics invariant. -/
theorem foldVerdict_balanced (st : Stats) (logs : Nat) (v : Verdict)
    (h : StatsBalanced st logs) :
    StatsBalanced (foldVerdict st v).1
      (logs + (if (foldVerdict st v).2 then 1 else 0)) := by
  obtain ⟨h1, h2, h3⟩ := h
  cases v with
  | taskStarted t ts =>
      refine ⟨by simp [foldVerdict, h1]; omega, ?_, by simpa [foldVerdict] using h3⟩
      intro w hw
      simp only [foldVerdict, List.mem_append, List.mem_singleton] at hw
      rcases hw with hw | hw
      · exact h2 w hw
      · subst hw; rfl
  | taskFinished t ts =>
      refine ⟨by simp [foldVerdict, h1]; omega, ?_, by simpa [foldVerdict] using h3⟩
      intro w hw
      simp only [foldVerdict, List.mem_append, List.mem_singleton] at hw
      rcases hw with hw | hw
      · exact h2 w hw
      · subst hw; rfl
  | checkpointReached c ts =>
      refine ⟨by simp [foldVerdict, h1]; omega, ?_, by simpa [foldVerdict] using h3⟩
      intro w hw
      simp only [foldVerdict, List.mem_append, List.mem_singleton] at hw
      rcases hw with hw | hw
      · exact h2 w hw
      · subst hw; rfl
  | pyVerdict o =>
      by_cases hP : o = "PASS"
      · subst hP
        refine ⟨by simpa [foldVerdict] using h1, ?_, ?_⟩
        · intro w hw
          exact h2 w (by simpa [foldVerdict] using hw)
        · simp [foldVerdict]
          omega
      · by_cases hF : o = "FAIL"
        · subst hF
          refine ⟨by simpa [foldVerdict, hP] using h1, ?_, ?_⟩
          · intro w hw
            exact h2 w (by simpa [foldVerdict, hP] using hw)
          · simp [foldVerdict, hP]
            omega
        · refine ⟨by simpa [foldVerdict, hP, hF] using h1, ?_, ?_⟩
          · intro w hw
            exact h2 w (by simpa [foldVerdict, hP, hF] using hw)
          · simp [foldVerdict, hP, hF]
            omega
  | symPyVerdict o =>
      by_cases hP : o = "PASS"
      · subst hP
        refine ⟨by simpa [foldVerdict] using h1, ?_, ?_⟩
        · intro w hw
          exact h2 w (by simpa [foldVerdict] using hw)
        · simp [foldVerdict]
          omega
      · by_cases hF : o = "FAIL"
        · subst hF
          refine ⟨by simpa [foldVerdict, hP] using h1, ?_, ?_⟩
          · intro w hw
            exact h2 w (by simpa [foldVerdict, hP] using hw)
          · simp [foldVerdict, hP]
            omega
        · refine ⟨by simpa [foldVerdict, hP, hF] using h1, ?_, ?_⟩
          · intro w hw
            exact h2 w (by simpa [foldVerdict, hP, hF] using hw)
          · simp [foldVerdict, hP, hF]
            omega
  | smt2Verdict o =>
      by_cases hP : o = "PASS"
      · subst hP
        refine ⟨by simpa [foldVerdict] using h1, ?_, ?_⟩
        · intro w hw
          exact h2 w (by simpa [foldVerdict] using hw)
        · simp [foldVerdict]
          omega
      · by_cases hM : o = "MIGHT_FAIL"
        · subst hM
          refine ⟨by simpa [foldVerdict, hP] using h1, ?_, ?_⟩
          · intro w hw
            exact h2 w (by simpa [foldVerdict, hP] using hw)
          · simp [foldVerdict, hP]
            omega
        · by_cases hF : o = "FAIL"
          · subst hF
            refine ⟨by simpa [foldVerdict, hP, hM] using h1, ?_, ?_⟩
            · intro w hw
              exact h2 w (by simpa [foldVerdict, hP, hM] using hw)
            · simp [foldVerdict, hP, hM]
              omega
          · refine ⟨by simpa [foldVerdict, hP, hM, hF] using h1, ?_, ?_⟩
            · intro w hw
              exact h2 w (by simpa [foldVerdict, hP, hM, hF] using hw)
            · simp [foldVerdict, hP, hM, hF]
              omega

/-- Handling one delivered message preserves the statistics
invariant. -/
theorem asProcessMessage_balanced (s : ASState) (now : Nat) (d : Delivery)
    (logs : Nat) (h : StatsBalanced s.stats logs) :
    StatsBalanced (asProcessMessage s now d).state.stats
      (logs + (asProcessMessage s now d).invalidOutcomeLogs) := by
  obtain ⟨term, ht, b⟩ := d
  cases term
  · cases ht with
    | none => simpa [asProcessMessage] using h
    | some t =>
        by_cases htv : t = "verdict"
        · subst htv
          cases b with
          | invalid => simpa [asProcessMessage] using h
          | verdict dd =>
              rcases hfd : VerdictDictCoDec.from_dict dd with e | v
              · simpa [asProcessMessage, hfd] using h
              · have hb := foldVerdict_balanced s.stats logs v h
                simpa [asProcessMessage, hfd] using hb
        · simpa [asProcessMessage, htv] using h
  · simpa [asProcessMessage] using h

/-- The whole receive loop preserves the statistics invariant. -/
theorem asRun_balanced (T : Nat) :
    ∀ (iters : List Iter) (s : ASState) (logs : Nat),
      StatsBalanced s.stats logs →
      StatsBalanced (asRun T s iters).state.stats
        (logs + (asRun T s iters).invalidOutcomeLogs) := by
  intro iters
  induction iters with
  | nil => intro s logs h; simpa [asRun] using h
  | cons i rest ih =>
      intro s logs h
      cases hp : s.poison_received with
      | true => simpa [asRun, hp] using h
      | false =>
          cases hg : (i.stopFlag || consumerTimeoutCheck T i.now s.last_message_time) with
          | true =>
              rw [asRun]
              rcases Bool.or_eq_true _ _ |>.mp hg with hs | htm
              · simpa [hp, hs] using h
              · simpa [hp, htm] using h
          | false =>
              have hs : i.stopFlag = false := by
                cases hsf : i.stopFlag
                · rfl
                · rw [hsf] at hg; simp at hg
              have htm : consumerTimeoutCheck T i.now s.last_message_time = false := by
                cases hc : consumerTimeoutCheck T i.now s.last_message_time
                · rfl
                · rw [hc] at hg; simp at hg
              cases hpoll : i.poll with
              | none =>
                  rw [asRun]
                  simp only [hp, Bool.false_eq_true, if_false, hs, htm, hpoll,
                    Bool.or_self, if_false]
                  exact ih s logs h
              | some d =>
                  have hstep := asProcessMessage_balanced s i.now d logs h
                  cases hf : (asProcessMessage s i.now d).fatal with
                  | true =>
                      rw [asRun]
                      simpa [hp, hs, htm, hpoll, hf] using hstep
                  | false =>
                      cases hpo : (asProcessMessage s i.now d).state.poison_received with
                      | true =>
                          rw [asRun]
                          simpa [hp, hs, htm, hpoll, hf, hpo] using hstep
                      | false =>
                          rw [asRun]
                          simp only [hp, Bool.false_eq_true, if_false, hs, htm, hpoll,
                            Bool.or_self, Bool.false_or, hf, hpo]
                          have := ih (asProcessMessage s i.now d).state
                            (logs + (asProcessMessage s i.now d).invalidOutcomeLogs) hstep
                          simpa [Nat.add_assoc] using this

/-- Folding a verdict list preserves the statistics invariant. -/
theorem foldVerdicts_balanced :
    ∀ (vs : List Verdict) (st : Stats) (logs : Nat),
      StatsBalanced st logs →
      StatsBalanced (foldVerdicts st vs).1 (logs + (foldVerdicts st vs).2) := by
  intro vs
  induction vs with
  | nil => intro st logs h; simpa [foldVerdicts] using h
  | cons v vs ih =>
      intro st logs h
      have h1 := foldVerdict_balanced st logs v h
      have h2 := ih (foldVerdict st v).1
        (logs + (if (foldVerdict st v).2 then 1 else 0)) h1
      rw [foldVerdicts]
      simpa [Nat.add_assoc] using h2

/-- The trace after one fold step gains exactly the process verdicts. -/
theorem foldVerdict_trace (st : Stats) (v : Verdict) :
    (foldVerdict st v).1.trace =
      st.trace ++ (if v.isProcess then [v] else []) := by
  cases v with
  | taskStarted t ts => simp [foldVerdict, Verdict.isProcess]
  | taskFinished t ts => simp [foldVerdict, Verdict.isProcess]
  | checkpointReached c ts => simp [foldVerdict, Verdict.isProcess]
  | pyVerdict o =>
      by_cases hP : o = "PASS"
      · subst hP; simp [foldVerdict, Verdict.isProcess]
      · by_cases hF : o = "FAIL"
        · subst hF; simp [foldVerdict, Verdict.isProcess, hP]
        · simp [foldVerdict, Verdict.isProcess, hP, hF]
  | symPyVerdict o =>
      by_cases hP : o = "PASS"
      · subst hP; simp [foldVerdict, Verdict.isProcess]
      · by_cases hF : o = "FAIL"
        · subst hF; simp [foldVerdict, Verdict.isProcess, hP]
        · simp [foldVerdict, Verdict.isProcess, hP, hF]
  | smt2Verdict o =>
      by_cases hP : o = "PASS"
      · subst hP; simp [foldVerdict, Verdict.isProcess]
      · by_cases hM : o = "MIGHT_FAIL"
        · subst hM; simp [foldVerdict, Verdict.isProcess, hP]
        · by_cases hF : o = "FAIL"
          · subst hF; simp [foldVerdict, Verdict.isProcess, hP, hM]
          · simp [foldVerdict, Verdict.isProcess, hP, hM, hF]

/-- The trace after folding a verdict list is the original trace plus
exactly the process verdicts of the list, in order. -/
theorem foldVerdicts_trace :
    ∀ (vs : List Verdict) (st : Stats),
      (foldVerdicts st vs).1.trace =
        st.trace ++ vs.filter (fun v => v.isProcess) := by
  intro vs
  induction vs with
  | nil => intro st; simp [foldVerdicts]
  | cons v vs ih =>
      intro st
      rw [foldVerdicts]
      simp only [ih (foldVerdict st v).1, foldVerdict_trace, List.filter_cons]
      split_ifs <;> simp

/-- Claim C10: after every prefix of a run the trace holds exactly the
process verdicts folded so far (its length equals task_started +
task_finished + checkpoints_reached, analysis verdicts are never
appended), and the outcome tallies passed + might_fail + failed never
exceed analyzed_props — strictly less exactly when an out-of-domain
outcome was encountered at the fold. -/
theorem C10_stats_invariant :
    (∀ (T t0 : Nat) (iters : List Iter),
        let r := asRun T { last_message_time := t0 } iters
        r.state.stats.trace.length =
          r.state.stats.task_started + r.state.stats.task_finished +
            r.state.stats.checkpoints_reached ∧
        (∀ v ∈ r.state.stats.trace, v.isProcess = true) ∧
        r.state.stats.passed_props + r.state.stats.might_fail_props +
            r.state.stats.failed_props + r.invalidOutcomeLogs =
          r.state.stats.analyzed_props ∧
        r.state.stats.passed_props + r.state.stats.might_fail_props +
            r.state.stats.failed_props ≤ r.state.stats.analyzed_props) ∧
    (∀ vs : List Verdict,
        (foldVerdicts {} vs).1.trace = vs.filter (fun v => v.isProcess)) ∧
    (∀ vs : List Verdict,
        0 < (foldVerdicts {} vs).2 →
        (foldVerdicts {} vs).1.passed_props + (foldVerdicts {} vs).1.might_fail_props +
            (foldVerdicts {} vs).1.failed_props <
          (foldVerdicts {} vs).1.analyzed_props) := by
  have hinit : StatsBalanced {} 0 := by
    refine ⟨by simp, by simp, by simp⟩
  refine ⟨?_, ?_, ?_⟩
  · intro T t0 iters
    have h := asRun_balanced T iters { last_message_time := t0 } 0 hinit
    rw [Nat.zero_add] at h
    obtain ⟨h1, h2, h3⟩ := h
    exact ⟨h1, h2, h3, by omega⟩
  · intro vs
    simpa using foldVerdicts_trace vs {}
  · intro vs hpos
    have h := foldVerdicts_balanced vs {} 0 hinit
    rw [Nat.zero_add] at h
    obtain ⟨_, _, h3⟩ := h
    omega

/-- Witness for C10: a fold containing the out-of-domain outcome
"UNKNOWN" logs one error and leaves the tallies strictly below the
analyzed counter. -/
theorem C10_witness :
    0 < (foldVerdicts {} [Verdict.pyVerdict "UNKNOWN"]).2 ∧
    (foldVerdicts {} [Verdict.pyVerdict "UNKNOWN"]).1.passed_props +
        (foldVerdicts {} [Verdict.pyVerdict "UNKNOWN"]).1.might_fail_props +
        (foldVerdicts {} [Verdict.pyVerdict "UNKNOWN"]).1.failed_props <
      (foldVerdicts {} [Verdict.pyVerdict "UNKNOWN"]).1.analyzed_props :=
  ⟨by decide, C10_stats_invariant.2.2 [Verdict.pyVerdict "UNKNOWN"] (by decide)⟩

end RtToolbox
